import Mathlib

/-!
# Verification of the order-creation admission pipeline

A shallow embedding of the order service of this repository
(`order-service/internal/services/order_service.go`,
`order-service/internal/controllers/http/handler.go`,
`order-service/internal/domain/order.go`, and the `infra` product client),
together with theorems settling the specification's claims about it.

Concurrency and real time are modelled by an explicit environment (`Env`)
that records the outcome of every nondeterministic race (timer firings,
worker-slot availability, external call results), and by a small labelled
transition system for the request-coalescing discipline of
`getProductWithFastCache` (package `golang.org/x/sync/singleflight`).
Machine integers (`uint64`, `int64`) are modelled as `Nat`/`Int`; no claim
depends on overflow behaviour. Go `error` values are modelled structurally
as they are built by `errors.New` and `fmt.Errorf("...: %w", err)`.
-/

set_option autoImplicit false

namespace OrderSvc

/-- Order status enum from `internal/domain/order.go`
(`pending`/`confirmed`/`failed`). -/
inductive OrderStatus where
  | pending
  | confirmed
  | failed
deriving DecidableEq, Repr

/-- `domain.Order` from `internal/domain/order.go`: identifier assigned by the
store on insert (zero beforehand), product identifier, total price, status and
creation timestamp.  Timestamps are abstract clock values (`Nat`). -/
structure Order where
  ID : Nat
  ProductId : Nat
  TotalPrice : Int
  Status : OrderStatus
  CreatedAt : Nat
deriving DecidableEq, Repr

/-- `infra.ProductInfo`: the read-only product projection fetched from the
catalog service. -/
structure ProductInfo where
  ID : Nat
  Name : String
  Price : Int
  Qty : Int
deriving DecidableEq, Repr

/-- A Go `error` value as the service constructs them: `errors.New s` is
`GoErr.msg s`, and `fmt.Errorf("p: %w", e)` is `GoErr.wrap "p" e`. -/
inductive GoErr where
  | msg (s : String)
  | wrap (p : String) (inner : GoErr)
deriving DecidableEq, Repr

/-- A Go `interface{}` value as it can flow out of the product-resolution
path.  `prodPtr p` is an interface holding a `*infra.ProductInfo` whose
pointer is `p`; note that `prodPtr none` (a typed nil pointer boxed in an
interface) is a DIFFERENT value from `nilIface` (the nil interface): in Go,
`iface == nil` is false for the former.  `strMarker` is the `"cached"`
string sent on the validation channel; `jsonAny` stands for a value decoded
by `json.Unmarshal` from the shared (redis) tier. -/
inductive ProdIface where
  | nilIface
  | prodPtr (p : Option ProductInfo)
  | strMarker (s : String)
  | jsonAny
deriving DecidableEq, Repr

/-- Outcome of `redisClient.Get(ctx, key)` followed by `json.Unmarshal` in
`getProductWithFastCache` level 2: a miss/error, a hit whose JSON decodes to
the value `v`, or a hit whose payload fails to decode. -/
inductive RedisGet where
  | miss
  | hit (v : ProdIface)
  | hitBadJson
deriving DecidableEq, Repr

/-- Outcome of `prodClient.GetProductById` (`infra.ProductClient`): a product
pointer with nil error, a `(nil, nil)` return on HTTP 404 (the "not found"
convention), or a `(nil, err)` transport error. -/
inductive FetchOutcome where
  | found (p : ProductInfo)
  | notFound
  | fetchErr (e : GoErr)
deriving DecidableEq, Repr

/-- `cachedProduct` from `order_service.go`: a local-cache entry. -/
structure cachedProduct where
  product : ProdIface
  expiresAt : Nat
deriving DecidableEq, Repr

/-- `cachedProduct.isExpired`: `time.Now().After(cp.expiresAt)`. -/
def cachedProduct.isExpired (cp : cachedProduct) (now : Nat) : Bool :=
  cp.expiresAt < now

/-- The mutable state of an `OrderService` relevant to a single call: the
process-local `sync.Map` product cache and whether a redis client was
attached via `SetRedisClient`. -/
structure ServiceState where
  localCache : Nat → Option cachedProduct
  redisEnabled : Bool

/-- The environment of one `CreateOrder` call: the clock, whether the
caller-supplied context is cancelled, and the outcome of every external
interaction and timer race the call can encounter. -/
structure Env where
  now : Nat
  ctxCancelled : Bool
  redisGet : RedisGet
  originFetch : FetchOutcome
  /-- the 200 ms validation timer wins the `select` race -/
  validationTimerFires : Bool
  /-- a `dbWorkers` slot is acquired before the 100 ms timer fires -/
  dbSlotFree : Bool
  /-- `repo.Save` result; on success, the ID the store wrote into `order.ID` -/
  saveResult : Except GoErr Nat
  /-- an `eventWorkers` slot is free in the non-blocking `select` -/
  eventSlotFree : Bool

/-- The `order.created` event payload built by `publishOrderCreatedEvent`. -/
structure EventPayload where
  orderId : Nat
  productId : Nat
  totalPrice : Int
  createdAt : Nat
deriving DecidableEq, Repr

/-- Observable effects of one `CreateOrder` call: `ServiceStats` counter
increments, `repo.Save` invocations, publisher invocations (topic and
payload), whether the event was dropped by the saturated pool, local-cache
stores, and whether an asynchronous redis `Set` was scheduled. -/
structure Trace where
  totalIncr : Nat
  succIncr : Nat
  failIncr : Nat
  cacheHitIncr : Nat
  cacheMissIncr : Nat
  saveCalls : Nat
  publishes : List (String × EventPayload)
  eventDropped : Bool
  localStores : List (Nat × ProdIface)
  redisSetScheduled : Bool
deriving Repr

/-- The empty trace. -/
def Trace.empty : Trace :=
  ⟨0, 0, 0, 0, 0, 0, [], false, [], false⟩

/-- `OrderService.isProductValidCached`: true iff the local cache holds an
unexpired entry for the product (the fast validation path). -/
def isProductValidCached (st : ServiceState) (now productId : Nat) : Bool :=
  match st.localCache productId with
  | some cached => ¬ cached.isExpired now
  | none => false

/-- Result of one (uncoalesced) execution of the `getProductWithFastCache`
closure: the `(interface{}, error)` pair, the updated local cache, the
stores performed, whether an async redis write was scheduled, and whether
the origin client was called. -/
structure FetchResult where
  result : Except GoErr ProdIface
  localCache : Nat → Option cachedProduct
  localStores : List (Nat × ProdIface)
  redisSetScheduled : Bool
  originCalled : Bool

/-- Level 3 of `getProductWithFastCache`: call the Product Lookup Client with
a 150 ms deadline derived from the caller's context (so caller cancellation
surfaces as a transport error here).  On error, wrap it as
`"product service error: %w"`.  On a non-nil product, store it in the local
cache synchronously and schedule an async redis `Set`.  The final
`return prod, nil` boxes the `*ProductInfo` into an `interface{}`: on the
404 path this yields the non-nil interface `prodPtr none`, never `nilIface`. -/
def fetchLevel3 (st : ServiceState) (env : Env) (productId : Nat) : FetchResult :=
  match (if env.ctxCancelled then .fetchErr (.msg "context canceled") else env.originFetch) with
  | .fetchErr e =>
      ⟨.error (.wrap "product service error" e), st.localCache, [], false, true⟩
  | .notFound =>
      ⟨.ok (.prodPtr none), st.localCache, [], false, true⟩
  | .found p =>
      let entry : cachedProduct := ⟨.prodPtr (some p), env.now + 30⟩
      ⟨.ok (.prodPtr (some p)),
       Function.update st.localCache productId (some entry),
       [(productId, .prodPtr (some p))],
       st.redisEnabled,
       true⟩

/-- `OrderService.getProductWithFastCache`: the body of the
`singleflight.Do` closure for key `"product:<id>"`.  Level 1 is the local
cache; level 2 is redis with a 30 ms deadline (skipped when no redis client
is attached, and falling through on error, cancellation or undecodable
payload); level 3 is the origin client.  For a single sequential call
`singleflight.Do` just runs the closure; the cross-caller coalescing
discipline is modelled separately by `CoalesceStep` below. -/
def getProductWithFastCache (st : ServiceState) (env : Env) (productId : Nat) :
    FetchResult :=
  match st.localCache productId with
  | some cached =>
      if ¬ cached.isExpired env.now then
        ⟨.ok cached.product, st.localCache, [], false, false⟩
      else if st.redisEnabled then
        match (if env.ctxCancelled then .miss else env.redisGet) with
        | .hit v =>
            let entry : cachedProduct := ⟨v, env.now + 30⟩
            ⟨.ok v, Function.update st.localCache productId (some entry),
             [(productId, v)], false, false⟩
        | .miss => fetchLevel3 st env productId
        | .hitBadJson => fetchLevel3 st env productId
      else fetchLevel3 st env productId
  | none =>
      if st.redisEnabled then
        match (if env.ctxCancelled then .miss else env.redisGet) with
        | .hit v =>
            let entry : cachedProduct := ⟨v, env.now + 30⟩
            ⟨.ok v, Function.update st.localCache productId (some entry),
             [(productId, v)], false, false⟩
        | .miss => fetchLevel3 st env productId
        | .hitBadJson => fetchLevel3 st env productId
      else fetchLevel3 st env productId

/-- What the validation goroutine of `CreateOrder` sends on its channels:
either a value on `productChan` (proceed) or a non-nil error on
`productErrChan`. -/
inductive ValidationOutcome where
  | proceed (v : ProdIface)
  | failedWith (e : GoErr)
deriving DecidableEq, Repr

/-- Result of the validation goroutine together with its side effects. -/
structure ValidationResult where
  outcome : ValidationOutcome
  localCache : Nat → Option cachedProduct
  localStores : List (Nat × ProdIface)
  redisSetScheduled : Bool
  originCalled : Bool
  cacheHitIncr : Nat
  cacheMissIncr : Nat

/-- The anonymous goroutine in `CreateOrder`: fast-path
`isProductValidCached` (sending the `"cached"` marker), else
`getProductWithFastCache`; a `nil` interface result is reported as
`"product not found"`.  Note the nil check `prod == nil` is on the
`interface{}` value, so `prodPtr none` passes it. -/
def validationGoroutine (st : ServiceState) (env : Env) (productId : Nat) :
    ValidationResult :=
  if isProductValidCached st env.now productId then
    ⟨.proceed (.strMarker "cached"), st.localCache, [], false, false, 1, 0⟩
  else
    let fr := getProductWithFastCache st env productId
    match fr.result with
    | .error e => ⟨.failedWith e, fr.localCache, fr.localStores,
        fr.redisSetScheduled, fr.originCalled, 0, 1⟩
    | .ok prod =>
        if prod = .nilIface then
          ⟨.failedWith (.msg "product not found"), fr.localCache, fr.localStores,
           fr.redisSetScheduled, fr.originCalled, 0, 1⟩
        else
          ⟨.proceed prod, fr.localCache, fr.localStores,
           fr.redisSetScheduled, fr.originCalled, 0, 1⟩

/-- Result of one `CreateOrder` call: the returned `(Order, error)` pair, the
service state afterwards, and the observable effect trace. -/
structure CreateResult where
  result : Except GoErr Order
  state : ServiceState
  trace : Trace

/-- `OrderService.CreateOrder`, `order_service.go` lines 117-208.
Increments `TotalRequests`; races the validation goroutine against a 200 ms
timer; on validation success constructs a `pending` order stamped with the
current clock; acquires a `dbWorkers` slot with a 100 ms bound (else the
distinct `"database connection timeout"` error); runs `repo.Save` and
rejects a zero assigned ID; increments `SuccessfulOrders`; then hands the
`order.created` event to the event pool if a slot is free, dropping it
otherwise; finally returns the persisted order.  The goroutine's cache
writes land in the state regardless of which select arm wins, since the
goroutine keeps running. -/
def CreateOrder (st : ServiceState) (env : Env) (productId : Nat)
    (totalPrice : Int) : CreateResult :=
  let g := validationGoroutine st env productId
  let st' : ServiceState := ⟨g.localCache, st.redisEnabled⟩
  let base : Trace :=
    { Trace.empty with
      totalIncr := 1
      cacheHitIncr := g.cacheHitIncr
      cacheMissIncr := g.cacheMissIncr
      localStores := g.localStores
      redisSetScheduled := g.redisSetScheduled }
  let order0 : Order :=
    ⟨0, productId, totalPrice, .pending, env.now⟩
  if env.validationTimerFires then
    ⟨.error (.msg "product validation timeout"), st', { base with failIncr := 1 }⟩
  else
    match g.outcome with
    | .failedWith e =>
        ⟨.error (.wrap "product validation failed" e), st',
         { base with failIncr := 1 }⟩
    | .proceed _ =>
        if ¬ env.dbSlotFree then
          ⟨.error (.msg "database connection timeout"), st',
           { base with failIncr := 1 }⟩
        else
          match env.saveResult with
          | .error e =>
              ⟨.error (.wrap "failed to save order" e), st',
               { base with failIncr := 1, saveCalls := 1 }⟩
          | .ok assignedId =>
              if assignedId = 0 then
                ⟨.error (.msg "order saved but ID not assigned"), st',
                 { base with failIncr := 1, saveCalls := 1 }⟩
              else
                let order : Order := { order0 with ID := assignedId }
                let payload : EventPayload :=
                  ⟨order.ID, order.ProductId, order.TotalPrice, order.CreatedAt⟩
                if env.eventSlotFree then
                  ⟨.ok order, st',
                   { base with
                     succIncr := 1
                     saveCalls := 1
                     publishes := [("order.created", payload)] }⟩
                else
                  ⟨.ok order, st',
                   { base with
                     succIncr := 1
                     saveCalls := 1
                     eventDropped := true }⟩

/-! ## HTTP handler (`internal/controllers/http/handler.go`) -/

/-- The redis key-value store fronting the by-product order listing,
modelled as a map from keys to stored JSON strings. -/
def RedisKV : Type := String → Option String

/-- `rdb.Del(ctx, key)`. -/
def RedisKV.del (kv : RedisKV) (key : String) : RedisKV :=
  fun k => if k = key then none else kv k

/-- `rdb.Set(ctx, key, data, ttl)` (the TTL is outside the model's clock). -/
def RedisKV.setKey (kv : RedisKV) (key v : String) : RedisKV :=
  fun k => if k = key then some v else kv k

/-- The by-product listing cache key, `"orders:product" + strconv.FormatUint`
in `Handler.CreateOrder` and `"orders:product" + productIdStr` in
`Handler.GetOrderByProduct`. -/
def orderCacheKey (productId : Nat) : String :=
  "orders:product" ++ toString productId

/-- The gin binding rules on the create-order request body:
`ProductID uint64 binding:"required"` and
`TotalPrice int64 binding:"required,min=0"`.  The validator's `required`
rule fails on a field left at its zero value, so `0` is rejected for both
fields even though `min=0` alone would admit a zero price. -/
def bindCreateOrder (productId : Nat) (totalPrice : Int) : Bool :=
  productId ≠ 0 ∧ totalPrice ≠ 0 ∧ 0 ≤ totalPrice

/-- Result of `Handler.CreateOrder`: HTTP status, the order ID in the 201
body, whether `service.CreateOrder` was invoked, the service-call trace, and
the redis state when the handler returns its response. -/
structure HandlerCreateResult where
  status : Nat
  orderId : Option Nat
  serviceCalled : Bool
  trace : Trace
  rdb : RedisKV

/-- `Handler.CreateOrder` (`handler.go` lines 29-51): bind the JSON body
(zero `productId` or `totalPrice` fails `required` → 400 before the service
is touched); call `service.CreateOrder` (any error → 400); on success,
delete the by-product listing cache key for this product and only then
respond 201 with the order's ID. -/
def handlerCreateOrder (rdb : RedisKV) (st : ServiceState) (env : Env)
    (productId : Nat) (totalPrice : Int) : HandlerCreateResult :=
  if ¬ bindCreateOrder productId totalPrice then
    ⟨400, none, false, Trace.empty, rdb⟩
  else
    let r := CreateOrder st env productId totalPrice
    match r.result with
    | .error _ => ⟨400, none, true, r.trace, rdb⟩
    | .ok order =>
        ⟨201, some order.ID, true, r.trace, rdb.del (orderCacheKey productId)⟩

/-- Result of `Handler.GetOrderByProduct`: HTTP status, whether the response
body came from the redis listing cache, and the redis state afterwards. -/
structure HandlerListResult where
  status : Nat
  fromCache : Bool
  rdb : RedisKV

/-- A stand-in for `json.Marshal(orders)`; only its presence in the cache is
observable in this model. -/
def jsonMarshalOrders (orders : List Order) : String :=
  toString (repr orders)

/-- `Handler.GetOrderByProduct` (`handler.go` lines 53-81): empty path
parameter → 400; a redis hit on `"orders:product"+productIdStr` is served
directly from the cache; otherwise `service.GetOrderByProductId` (whose
outcome `repoOrders` the environment supplies) is consulted, errors map to
500, and a fresh result is written back to the cache with a 10 s TTL. -/
def handlerGetOrderByProduct (rdb : RedisKV) (repoOrders : Except GoErr (List Order))
    (productIdStr : String) : HandlerListResult :=
  if productIdStr = "" then
    ⟨400, false, rdb⟩
  else
    let key := "orders:product" ++ productIdStr
    match rdb key with
    | some _ => ⟨200, true, rdb⟩
    | none =>
        match repoOrders with
        | .error _ => ⟨500, false, rdb⟩
        | .ok orders => ⟨200, false, rdb.setKey key (jsonMarshalOrders orders)⟩

/-! ## Request coalescing (`singleflight.Group.Do` in
`getProductWithFastCache`)

Every caller that misses the fast local-cache check enters
`sf.Do("product:<id>", closure)`.  The `singleflight` contract: the first
caller for a key runs the closure (at most one origin lookup inside it);
callers arriving while that execution is in flight wait and share its
result without running the closure.  We model the callers for one fixed key
as a labelled transition system and prove mutual exclusion of in-flight
fetches plus an at-most-one-fetch-per-caller bound. -/

/-- Control state of one caller in the coalesced-fetch protocol:
about to enter `sf.Do`; waiting on an in-flight leader; executing the
closure (origin fetch in flight); or returned with a result. -/
inductive CallerPC where
  | start
  | waiting
  | fetching
  | done
deriving DecidableEq, Repr

/-- Global state of `n` concurrent `getProductWithFastCache` callers for the
same product key: each caller's control state, whether a `singleflight`
call for the key is in flight, and how many origin lookups each caller has
issued. -/
structure CoalesceState (n : Nat) where
  pc : Fin n → CallerPC
  sfBusy : Bool
  fetches : Fin n → Nat

/-- Interleaving semantics of the coalesced fetch.  `lead`: a caller finds
no in-flight call, registers itself and starts the (single) origin fetch.
`join`: a caller finds an in-flight call and waits on it.  `finish`: the
leader's closure returns and deregisters the key.  `share`: a waiter
receives the completed leader's result without fetching. -/
inductive CoalesceStep (n : Nat) :
    CoalesceState n → CoalesceState n → Prop where
  | lead (i : Fin n) (s : CoalesceState n) :
      s.pc i = .start → s.sfBusy = false →
      CoalesceStep n s
        ⟨Function.update s.pc i .fetching, true,
         Function.update s.fetches i (s.fetches i + 1)⟩
  | join (i : Fin n) (s : CoalesceState n) :
      s.pc i = .start → s.sfBusy = true →
      CoalesceStep n s ⟨Function.update s.pc i .waiting, s.sfBusy, s.fetches⟩
  | finish (i : Fin n) (s : CoalesceState n) :
      s.pc i = .fetching →
      CoalesceStep n s ⟨Function.update s.pc i .done, false, s.fetches⟩
  | share (i : Fin n) (s : CoalesceState n) :
      s.pc i = .waiting → s.sfBusy = false →
      CoalesceStep n s ⟨Function.update s.pc i .done, s.sfBusy, s.fetches⟩

/-- Initial state: all callers about to enter, no in-flight call, no
fetches issued. -/
def coalesceInit (n : Nat) : CoalesceState n :=
  ⟨fun _ => .start, false, fun _ => 0⟩

/-- States reachable from the initial state by interleaved caller steps. -/
def CoalesceReachable (n : Nat) (s : CoalesceState n) : Prop :=
  Relation.ReflTransGen (CoalesceStep n) (coalesceInit n) s

/-- The inductive invariant of the coalescing protocol: the busy flag
matches the existence of a fetching caller, at most one caller fetches at a
time, a caller that has not yet entered has fetched nothing, and no caller
ever fetches twice. -/
def CoalesceInv (n : Nat) (s : CoalesceState n) : Prop :=
  (s.sfBusy = false → ∀ i, s.pc i ≠ .fetching) ∧
  (∀ i j, s.pc i = .fetching → s.pc j = .fetching → i = j) ∧
  (∀ i, s.pc i = .start → s.fetches i = 0) ∧
  (∀ i, s.fetches i ≤ 1)

/-- The invariant holds initially. -/
theorem coalesceInv_init (n : Nat) : CoalesceInv n (coalesceInit n) :=
  ⟨fun _ i => by simp [coalesceInit],
   fun i _ hi _ => by simp [coalesceInit] at hi,
   fun _ _ => rfl,
   fun _ => Nat.zero_le 1⟩

/-- The invariant is preserved by every step of the coalescing protocol. -/
theorem coalesceInv_step {n : Nat} {s t : CoalesceState n}
    (hs : CoalesceInv n s) (h : CoalesceStep n s t) : CoalesceInv n t := by
  obtain ⟨hbusy, huniq, hstart, hle⟩ := hs
  cases h with
  | lead i _ hpc hb =>
      refine ⟨fun hfalse => by simp at hfalse, ?_, ?_, ?_⟩
      · intro a b ha hb'
        simp only [Function.update_apply] at ha hb'
        by_cases hai : a = i
        · by_cases hbi : b = i
          · rw [hai, hbi]
          · rw [if_neg hbi] at hb'
            exact absurd hb' (hbusy hb b)
        · rw [if_neg hai] at ha
          exact absurd ha (hbusy hb a)
      · intro a ha
        simp only [Function.update_apply] at ha ⊢
        by_cases hai : a = i
        · rw [if_pos hai] at ha
          exact absurd ha (by simp)
        · rw [if_neg hai] at ha
          rw [if_neg hai]
          exact hstart a ha
      · intro a
        simp only [Function.update_apply]
        by_cases hai : a = i
        · rw [if_pos hai]
          have h0 : s.fetches i = 0 := hstart i hpc
          omega
        · rw [if_neg hai]
          exact hle a
  | join i _ hpc hb =>
      refine ⟨?_, ?_, ?_, hle⟩
      · intro hfalse
        simp only [] at hfalse
        rw [hb] at hfalse
        exact absurd hfalse (by simp)
      · intro a b ha hb'
        simp only [Function.update_apply] at ha hb'
        by_cases hai : a = i
        · rw [if_pos hai] at ha
          exact absurd ha (by simp)
        · by_cases hbi : b = i
          · rw [if_pos hbi] at hb'
            exact absurd hb' (by simp)
          · rw [if_neg hai] at ha
            rw [if_neg hbi] at hb'
            exact huniq a b ha hb'
      · intro a ha
        simp only [Function.update_apply] at ha
        by_cases hai : a = i
        · rw [if_pos hai] at ha
          exact absurd ha (by simp)
        · rw [if_neg hai] at ha
          exact hstart a ha
  | finish i _ hpc =>
      refine ⟨?_, ?_, ?_, hle⟩
      · intro _ a
        simp only [Function.update_apply]
        by_cases hai : a = i
        · rw [if_pos hai]
          simp
        · rw [if_neg hai]
          intro ha
          exact hai (huniq a i ha hpc)
      · intro a b ha hb'
        simp only [Function.update_apply] at ha hb'
        by_cases hai : a = i
        · rw [if_pos hai] at ha
          exact absurd ha (by simp)
        · rw [if_neg hai] at ha
          exact absurd (huniq a i ha hpc) hai
      · intro a ha
        simp only [Function.update_apply] at ha
        by_cases hai : a = i
        · rw [if_pos hai] at ha
          exact absurd ha (by simp)
        · rw [if_neg hai] at ha
          exact hstart a ha
  | share i _ hpc hb =>
      refine ⟨?_, ?_, ?_, hle⟩
      · intro hfalse a
        simp only [Function.update_apply]
        by_cases hai : a = i
        · rw [if_pos hai]
          simp
        · rw [if_neg hai]
          exact hbusy hb a
      · intro a b ha hb'
        simp only [Function.update_apply] at ha hb'
        by_cases hai : a = i
        · rw [if_pos hai] at ha
          exact absurd ha (by simp)
        · by_cases hbi : b = i
          · rw [if_pos hbi] at hb'
            exact absurd hb' (by simp)
          · rw [if_neg hai] at ha
            rw [if_neg hbi] at hb'
            exact huniq a b ha hb'
      · intro a ha
        simp only [Function.update_apply] at ha
        by_cases hai : a = i
        · rw [if_pos hai] at ha
          exact absurd ha (by simp)
        · rw [if_neg hai] at ha
          exact hstart a ha

/-- Every reachable state of the coalescing protocol satisfies the
invariant. -/
theorem coalesceInv_of_reachable {n : Nat} {s : CoalesceState n}
    (h : CoalesceReachable n s) : CoalesceInv n s := by
  induction h with
  | refl => exact coalesceInv_init n
  | tail _ hstep ih => exact coalesceInv_step ih hstep

/-- A concrete two-caller scenario: caller 0 has entered `sf.Do` and is
executing the origin fetch. -/
def coalesceDemo1 : CoalesceState 2 :=
  ⟨Function.update (coalesceInit 2).pc 0 .fetching, true,
   Function.update (coalesceInit 2).fetches 0 ((coalesceInit 2).fetches 0 + 1)⟩

/-- Caller 1 then arrives for the same key and joins caller 0's in-flight
resolution instead of fetching. -/
def coalesceDemo2 : CoalesceState 2 :=
  ⟨Function.update coalesceDemo1.pc 1 .waiting, coalesceDemo1.sfBusy,
   coalesceDemo1.fetches⟩

/-- The demo state is reachable: a `lead` step by caller 0 followed by a
`join` step by caller 1. -/
theorem coalesceDemo2_reachable : CoalesceReachable 2 coalesceDemo2 :=
  Relation.ReflTransGen.tail
    (Relation.ReflTransGen.tail Relation.ReflTransGen.refl
      (CoalesceStep.lead 0 (coalesceInit 2) rfl rfl))
    (CoalesceStep.join 1 coalesceDemo1 (by decide) rfl)

/-- C6: for every product key, at most one origin fetch is in flight at any
instant — in every reachable state of the coalescing protocol of
`getProductWithFastCache` (`singleflight.Do` around the lookup client), any
two callers currently executing the fetch are equal, and no caller ever
issues more than one origin lookup for the key. -/
theorem C6_coalesced_fetch_exclusive {n : Nat} {s : CoalesceState n}
    (h : CoalesceReachable n s) :
    (∀ i j, s.pc i = .fetching → s.pc j = .fetching → i = j) ∧
    (∀ i, s.fetches i ≤ 1) := by
  obtain ⟨-, huniq, -, hle⟩ := coalesceInv_of_reachable h
  exact ⟨huniq, hle⟩

/-- Witness for C6 at the concrete reachable two-caller state
`coalesceDemo2` (one leader fetching, one waiter coalesced onto it). -/
theorem C6_coalesced_fetch_exclusive_witness :
    CoalesceReachable 2 coalesceDemo2 ∧
    ((∀ i j, coalesceDemo2.pc i = .fetching → coalesceDemo2.pc j = .fetching →
        i = j) ∧
     (∀ i, coalesceDemo2.fetches i ≤ 1)) :=
  ⟨coalesceDemo2_reachable, C6_coalesced_fetch_exclusive coalesceDemo2_reachable⟩

/-! ## Claims on `CreateOrder` -/

/-- C9: every `CreateOrder` call increments `TotalRequests` exactly once,
and increments exactly one of `SuccessfulOrders` / `FailedOrders` exactly
once — `SuccessfulOrders` precisely when an order is returned; hence
`TotalRequests = SuccessfulOrders + FailedOrders` once all calls have
terminated. -/
theorem C9_stats_balance (st : ServiceState) (env : Env) (productId : Nat)
    (totalPrice : Int) :
    (CreateOrder st env productId totalPrice).trace.totalIncr = 1 ∧
    (CreateOrder st env productId totalPrice).trace.succIncr +
      (CreateOrder st env productId totalPrice).trace.failIncr = 1 ∧
    ((∃ o, (CreateOrder st env productId totalPrice).result = .ok o) ↔
      (CreateOrder st env productId totalPrice).trace.succIncr = 1) := by
  unfold CreateOrder
  cases htimer : env.validationTimerFires <;>
    cases hout : (validationGoroutine st env productId).outcome <;>
    cases hslot : env.dbSlotFree <;>
    cases hsave : env.saveResult <;>
    cases hevent : env.eventSlotFree <;>
    simp [htimer, hout, hslot, hsave, hevent, Trace.empty] <;>
    split <;>
    simp_all

/-- A service whose local cache is empty and that has no redis client
attached (the configuration of the unit tests). -/
def freshState : ServiceState := ⟨fun _ => none, false⟩

/-- The in-stock product fixture of the test suite. -/
def prodOne : ProductInfo := ⟨1, "Test Product", 1000, 5⟩

/-- Environment of the C1 failing input: the lookup client reports product
888 absent (HTTP 404, i.e. `(nil, nil)`), no timer fires, a db worker slot
is free and the store assigns ID 7. -/
def envNotFound : Env := ⟨0, false, .miss, .notFound, false, true, .ok 7, true⟩

/-- C1 (code bug): when the product lookup reports the product absent,
`CreateOrder` is supposed to fail with the product-not-found error and never
call `repo.Save` — but the `(nil, nil)` return of `GetProductById` flows
through `getProductWithFastCache`'s `interface{}` result as a typed nil
pointer (`prodPtr none`), which is a non-nil interface, so the goroutine's
`prod == nil` guard does not fire: the call persists an order for the
nonexistent product and returns it successfully (`repo.Save` invoked once).
Only the caching half of the claim holds: the absent result is stored in no
cache tier. -/
theorem C1_not_found_still_persists :
    (CreateOrder freshState envNotFound 888 1000).result =
      .ok ⟨7, 888, 1000, .pending, 0⟩ ∧
    (CreateOrder freshState envNotFound 888 1000).trace.saveCalls = 1 ∧
    (CreateOrder freshState envNotFound 888 1000).trace.localStores = [] ∧
    (CreateOrder freshState envNotFound 888 1000).trace.redisSetScheduled
      = false :=
  ⟨rfl, rfl, rfl, rfl⟩

/-- C2: when the bounded persistence worker pool is exhausted — a
`dbWorkers` slot cannot be acquired before the 100 ms bound fires — a call
that passed validation fails with the service's distinct overload error
(`"database connection timeout"`), and conversely that error is returned
only when the slot acquisition failed, so callers can tell it apart from
every other failure.  The wait is bounded by construction: the `select`
always takes the timer arm when no slot arrives. -/
theorem C2_overload_distinct_error (st : ServiceState) (env : Env)
    (productId : Nat) (totalPrice : Int) (v : ProdIface) :
    ((validationGoroutine st env productId).outcome = .proceed v →
      env.validationTimerFires = false →
      env.dbSlotFree = false →
      (CreateOrder st env productId totalPrice).result =
        .error (.msg "database connection timeout")) ∧
    ((CreateOrder st env productId totalPrice).result =
        .error (.msg "database connection timeout") →
      env.dbSlotFree = false) := by
  constructor
  · intro hout htimer hslot
    simp [CreateOrder, hout, htimer, hslot]
  · intro hres
    by_contra hslot
    rw [Bool.not_eq_false] at hslot
    unfold CreateOrder at hres
    cases htimer : env.validationTimerFires <;>
      cases hout : (validationGoroutine st env productId).outcome <;>
      cases hsave : env.saveResult <;>
      cases hevent : env.eventSlotFree <;>
      simp [htimer, hout, hslot, hsave, hevent] at hres <;>
      split at hres <;>
      simp_all

/-- Environment in which validation succeeds from the origin but no
`dbWorkers` slot is free within the bound. -/
def envOverloaded : Env := ⟨0, false, .miss, .found prodOne, false, false, .ok 3, true⟩

/-- Witness for C2 at a concrete overloaded call. -/
theorem C2_overload_distinct_error_witness :
    (CreateOrder freshState envOverloaded 1 1000).result =
      .error (.msg "database connection timeout") ∧
    envOverloaded.dbSlotFree = false :=
  ⟨(C2_overload_distinct_error freshState envOverloaded 1 1000
      (.prodPtr (some prodOne))).1 rfl rfl rfl,
   (C2_overload_distinct_error freshState envOverloaded 1 1000
      (.prodPtr (some prodOne))).2 rfl⟩

/-- Environment of the C3 counterexample: everything succeeds but the event
worker pool is saturated when the order completes. -/
def envEventPoolFull : Env := ⟨0, false, .miss, .found prodOne, false, true, .ok 3, false⟩

/-- C3 counterexample: a `CreateOrder` call that returns successfully while
the event worker pool is saturated never invokes the Event Publisher — the
`default` arm of the publish `select` drops the event (and only logs), so
"always eventually exactly once" fails. -/
theorem C3_counterexample_event_dropped :
    (CreateOrder freshState envEventPoolFull 1 1500).result =
      .ok ⟨3, 1, 1500, .pending, 0⟩ ∧
    (CreateOrder freshState envEventPoolFull 1 1500).trace.publishes = [] ∧
    (CreateOrder freshState envEventPoolFull 1 1500).trace.eventDropped
      = true :=
  ⟨rfl, rfl, rfl⟩

/-- C3 (amended): a successful `CreateOrder` hands the event to the
publisher exactly once — topic `"order.created"`, payload `orderId` equal to
the returned persisted order's identifier — whenever an event worker slot is
free at completion; when the pool is saturated the event is dropped and
nothing is ever published for that order. -/
theorem C3_publish_once_unless_saturated (st : ServiceState) (env : Env)
    (productId : Nat) (totalPrice : Int) (o : Order)
    (hok : (CreateOrder st env productId totalPrice).result = .ok o) :
    (env.eventSlotFree = true →
      (CreateOrder st env productId totalPrice).trace.publishes =
        [("order.created", ⟨o.ID, o.ProductId, o.TotalPrice, o.CreatedAt⟩)]) ∧
    (env.eventSlotFree = false →
      (CreateOrder st env productId totalPrice).trace.publishes = []) := by
  unfold CreateOrder at hok ⊢
  cases htimer : env.validationTimerFires <;>
    cases hout : (validationGoroutine st env productId).outcome <;>
    cases hslot : env.dbSlotFree <;>
    cases hsave : env.saveResult <;>
    cases hevent : env.eventSlotFree <;>
    simp [htimer, hout, hslot, hsave, hevent, Trace.empty] at hok ⊢ <;>
    split at hok <;>
    (try cases hok) <;>
    simp_all

/-- Environment of the C3 witness: success with a free event worker slot. -/
def envPublishOk : Env := ⟨0, false, .miss, .found prodOne, false, true, .ok 3, true⟩

/-- Witness for C3 (amended) at a concrete successful call. -/
theorem C3_publish_once_unless_saturated_witness :
    (CreateOrder freshState envPublishOk 1 1500).trace.publishes =
      [("order.created", ⟨3, 1, 1500, 0⟩)] :=
  (C3_publish_once_unless_saturated freshState envPublishOk 1 1500
    ⟨3, 1, 1500, .pending, 0⟩ rfl).1 rfl

/-- C4: for a product that exists with positive quantity (resolved through
the origin lookup into an otherwise cold cache), `CreateOrder` succeeds and
returns an order in `pending` status carrying the store-assigned non-zero
identifier, the caller-supplied product identifier and total price, and a
creation timestamp equal to the call's clock (the model's clock does not
advance during a call, so "within a small window" collapses to equality);
if the store reports success but leaves the identifier at zero, the call
fails with the persistence error instead. -/
theorem C4_in_stock_creates_pending_order (st : ServiceState) (env : Env)
    (productId : Nat) (totalPrice : Int) (p : ProductInfo) (n : Nat)
    (hcache : st.localCache productId = none)
    (hredis : st.redisEnabled = false)
    (hctx : env.ctxCancelled = false)
    (hfetch : env.originFetch = .found p)
    (hqty : 0 < p.Qty)
    (htimer : env.validationTimerFires = false)
    (hslot : env.dbSlotFree = true)
    (hsave : env.saveResult = .ok n) :
    (n ≠ 0 →
      (CreateOrder st env productId totalPrice).result =
        .ok ⟨n, productId, totalPrice, .pending, env.now⟩) ∧
    (n = 0 →
      (CreateOrder st env productId totalPrice).result =
        .error (.msg "order saved but ID not assigned")) := by
  have hval : (validationGoroutine st env productId).outcome =
      .proceed (.prodPtr (some p)) := by
    simp [validationGoroutine, isProductValidCached, getProductWithFastCache,
      fetchLevel3, hcache, hredis, hctx, hfetch]
  constructor
  · intro hn
    cases hevent : env.eventSlotFree <;>
      simp [CreateOrder, hval, htimer, hslot, hsave, hn, hevent]
  · intro hn
    simp [CreateOrder, hval, htimer, hslot, hsave, hn]

/-- Witness for C4: the spec's worked example,
`createOrder(productId=1, totalPrice=1500)` against `ProductInfo{id:1, qty:5}`. -/
theorem C4_in_stock_creates_pending_order_witness :
    (CreateOrder freshState envPublishOk 1 1500).result =
      .ok ⟨3, 1, 1500, .pending, 0⟩ :=
  (C4_in_stock_creates_pending_order freshState envPublishOk 1 1500 prodOne 3
    rfl rfl rfl rfl (by decide) rfl rfl rfl).1 (by decide)

/-- The zero-quantity product fixture. -/
def prodOut : ProductInfo := ⟨2, "Out Of Stock", 500, 0⟩

/-- C5: for a product that exists with quantity 0 the pipeline behaves
exactly as for an in-stock product — a successful lookup, a `pending` order
constructed, `repo.Save` invoked, and the persisted order returned — because
`CreateOrder` never inspects the quantity: gating on stock is deferred to
the external reconciler. -/
theorem C5_zero_quantity_still_persists (st : ServiceState) (env : Env)
    (productId : Nat) (totalPrice : Int) (p : ProductInfo) (n : Nat)
    (hcache : st.localCache productId = none)
    (hredis : st.redisEnabled = false)
    (hctx : env.ctxCancelled = false)
    (hfetch : env.originFetch = .found p)
    (hqty : p.Qty = 0)
    (htimer : env.validationTimerFires = false)
    (hslot : env.dbSlotFree = true)
    (hsave : env.saveResult = .ok n)
    (hn : n ≠ 0) :
    (CreateOrder st env productId totalPrice).result =
      .ok ⟨n, productId, totalPrice, .pending, env.now⟩ ∧
    (CreateOrder st env productId totalPrice).trace.saveCalls = 1 := by
  have hval : (validationGoroutine st env productId).outcome =
      .proceed (.prodPtr (some p)) := by
    simp [validationGoroutine, isProductValidCached, getProductWithFastCache,
      fetchLevel3, hcache, hredis, hctx, hfetch]
  cases hevent : env.eventSlotFree <;>
    constructor <;>
    simp [CreateOrder, hval, htimer, hslot, hsave, hn, hevent, Trace.empty]

/-- Environment with the zero-quantity product behind the origin lookup. -/
def envOutOfStock : Env := ⟨0, false, .miss, .found prodOut, false, true, .ok 4, true⟩

/-- Witness for C5 at a concrete zero-quantity product. -/
theorem C5_zero_quantity_still_persists_witness :
    (CreateOrder freshState envOutOfStock 2 900).result =
      .ok ⟨4, 2, 900, .pending, 0⟩ ∧
    (CreateOrder freshState envOutOfStock 2 900).trace.saveCalls = 1 :=
  C5_zero_quantity_still_persists freshState envOutOfStock 2 900 prodOut 4
    rfl rfl rfl rfl rfl rfl rfl rfl (by decide)

/-- A service state whose local cache holds an unexpired entry for product 1. -/
def cachedOneState : ServiceState :=
  ⟨fun pid => if pid = 1 then some ⟨.prodPtr (some prodOne), 100⟩ else none,
   false⟩

/-- Environment with the caller's context already cancelled while every
other resource is available. -/
def envCancelled : Env := ⟨0, true, .miss, .found prodOne, false, true, .ok 5, true⟩

/-- C8 counterexample: a call whose caller-supplied context is cancelled
still runs to completion and returns the persisted order when the product
validates from the local cache — neither the validation `select` nor the
`dbWorkers` slot acquisition has a `ctx.Done()` arm, so cancellation does
not abort those waits. -/
theorem C8_counterexample_cancel_ignored :
    envCancelled.ctxCancelled = true ∧
    (CreateOrder cachedOneState envCancelled 1 1000).result =
      .ok ⟨5, 1, 1000, .pending, 0⟩ :=
  ⟨rfl, rfl⟩

/-- C8 (amended): caller cancellation reaches only the stages that derive
their own contexts from the caller's — the redis probe and the origin
lookup inside `getProductWithFastCache`.  A cancelled call whose product
must be fetched from the origin therefore fails with the validation error
wrapping the transport cancellation; but a cancelled call that validates
from the unexpired local cache proceeds through slot acquisition and
persistence and returns the order, because the two `select` waits observe
only their own fixed timers, never `ctx.Done()`. -/
theorem C8_cancellation_reaches_only_fetch (st : ServiceState) (env : Env)
    (productId : Nat) (totalPrice : Int)
    (hctx : env.ctxCancelled = true)
    (htimer : env.validationTimerFires = false) :
    (st.localCache productId = none → st.redisEnabled = false →
      (CreateOrder st env productId totalPrice).result =
        .error (.wrap "product validation failed"
          (.wrap "product service error" (.msg "context canceled")))) ∧
    (∀ cp : cachedProduct, st.localCache productId = some cp →
      cp.isExpired env.now = false →
      ∀ n : Nat, env.saveResult = .ok n → n ≠ 0 → env.dbSlotFree = true →
      (CreateOrder st env productId totalPrice).result =
        .ok ⟨n, productId, totalPrice, .pending, env.now⟩) := by
  constructor
  · intro hcache hredis
    have hval : (validationGoroutine st env productId).outcome =
        .failedWith (.wrap "product service error" (.msg "context canceled")) := by
      simp [validationGoroutine, isProductValidCached, getProductWithFastCache,
        fetchLevel3, hcache, hredis, hctx]
    simp [CreateOrder, hval, htimer]
  · intro cp hcache hfresh n hsave hn hslot
    have hval : (validationGoroutine st env productId).outcome =
        .proceed (.strMarker "cached") := by
      simp [validationGoroutine, isProductValidCached, hcache, hfresh]
    cases hevent : env.eventSlotFree <;>
      simp [CreateOrder, hval, htimer, hslot, hsave, hn, hevent]

/-- Witness for C8 (amended): the cancelled-and-cold-cache half at a
concrete call, and the cancelled-but-cached half at `cachedOneState`. -/
theorem C8_cancellation_reaches_only_fetch_witness :
    (CreateOrder freshState envCancelled 1 1000).result =
      .error (.wrap "product validation failed"
        (.wrap "product service error" (.msg "context canceled"))) ∧
    (CreateOrder cachedOneState envCancelled 1 1000).result =
      .ok ⟨5, 1, 1000, .pending, 0⟩ :=
  ⟨(C8_cancellation_reaches_only_fetch freshState envCancelled 1 1000
      rfl rfl).1 rfl rfl,
   (C8_cancellation_reaches_only_fetch cachedOneState envCancelled 1 1000
      rfl rfl).2 ⟨.prodPtr (some prodOne), 100⟩ (by decide) (by decide) 5
      rfl (by decide) rfl⟩

/-! ## Claims on the HTTP handler -/

/-- C7: every create-order request that returns 201 deletes the cached
by-product listing for that product before the response is produced: the
redis state the handler returns with has no entry under the listing key, so
an immediately following `GetOrderByProduct` for the same product misses the
cache and serves a fresh repository read instead of the pre-creation
listing. -/
theorem C7_invalidate_before_response (rdb : RedisKV) (st : ServiceState)
    (env : Env) (productId : Nat) (totalPrice : Int)
    (repoOrders : Except GoErr (List Order))
    (h201 : (handlerCreateOrder rdb st env productId totalPrice).status = 201)
    (hstr : toString productId ≠ "") :
    (handlerCreateOrder rdb st env productId totalPrice).rdb
      (orderCacheKey productId) = none ∧
    (handlerGetOrderByProduct
      (handlerCreateOrder rdb st env productId totalPrice).rdb
      repoOrders (toString productId)).fromCache = false := by
  unfold handlerCreateOrder at h201 ⊢
  cases hbind : bindCreateOrder productId totalPrice <;>
    simp [hbind] at h201 ⊢
  cases hres : (CreateOrder st env productId totalPrice).result <;>
    simp [hres] at h201 ⊢
  constructor
  · simp [RedisKV.del]
  · unfold handlerGetOrderByProduct
    rw [if_neg hstr]
    simp only [RedisKV.del, orderCacheKey, if_pos rfl]
    cases repoOrders <;> simp

/-- A redis store in which every listing key is populated with a stale
pre-creation listing. -/
def rdbWarm : RedisKV := fun _ => some "stale-listing"

/-- Witness for C7: a concrete successful create against a warm listing
cache, followed by an immediate listing for the same product. -/
theorem C7_invalidate_before_response_witness :
    (handlerCreateOrder rdbWarm freshState envPublishOk 1 1500).rdb
      (orderCacheKey 1) = none ∧
    (handlerGetOrderByProduct
      (handlerCreateOrder rdbWarm freshState envPublishOk 1 1500).rdb
      (.ok []) (toString 1)).fromCache = false :=
  C7_invalidate_before_response rdbWarm freshState envPublishOk 1 1500
    (.ok []) rfl (by decide)

/-- C10: at the HTTP create-order endpoint, a body whose `productId` is 0 or
whose `totalPrice` is 0 fails the gin `required` binding rule (which treats
a zero value as a missing field, even though `min=0` alone would admit a
zero price) and is rejected with 400 before `service.CreateOrder` runs, so
nothing is persisted. -/
theorem C10_zero_fields_rejected_at_binding (rdb : RedisKV)
    (st : ServiceState) (env : Env) (productId : Nat) (totalPrice : Int)
    (h : productId = 0 ∨ totalPrice = 0) :
    (handlerCreateOrder rdb st env productId totalPrice).status = 400 ∧
    (handlerCreateOrder rdb st env productId totalPrice).serviceCalled
      = false ∧
    (handlerCreateOrder rdb st env productId totalPrice).trace.saveCalls
      = 0 := by
  have hb : bindCreateOrder productId totalPrice = false := by
    rcases h with h | h <;> simp [bindCreateOrder, h]
  simp [handlerCreateOrder, hb, Trace.empty]

/-- Witness for C10 at the concrete zero product identifier. -/
theorem C10_zero_fields_rejected_at_binding_witness :
    (handlerCreateOrder rdbWarm freshState envPublishOk 0 1500).status
      = 400 ∧
    (handlerCreateOrder rdbWarm freshState envPublishOk 0 1500).serviceCalled
      = false ∧
    (handlerCreateOrder rdbWarm freshState envPublishOk 0 1500).trace.saveCalls
      = 0 :=
  C10_zero_fields_rejected_at_binding rdbWarm freshState envPublishOk 0 1500
    (Or.inl rfl)

end OrderSvc
